import Mathlib

/-!
Shallow embedding of the Bloomfilter MCP client core (src/client.ts and
src/types.ts): configuration validation, the SIWE session manager (token
cache, refresh, ensure-auth), the job-status polling loop, and the
tool-error classifier.

Network effects are modelled by an explicit environment that supplies each
endpoint's response; every stateful operation returns its updated token
cache together with the list of network calls it issued, so that claims
about call counts ("zero network calls", "exactly one refresh") become
statements about that list.  Clock reads (Date.now()) are modelled as
explicit time values carried by the environment.
-/

namespace Bloomfilter

-- ── Constants (src/types.ts) ────────────────────────────────────────────────

/-- Polling interval for async job status checks in ms (types.ts). -/
def JOB_POLL_INTERVAL_MS : Nat := 2000

/-- Maximum time to poll for a job before timing out in ms (types.ts). -/
def JOB_TIMEOUT_MS : Nat := 300000

/-- HTTP request timeout in ms (types.ts). -/
def HTTP_TIMEOUT_MS : Nat := 30000

-- ── Configuration (src/types.ts, src/client.ts configSchema) ───────────────

/-- Raw configuration object (interface BloomfilterConfig in types.ts).
The private key is optional; times and the key are plain strings here. -/
structure BloomfilterConfig where
  apiUrl : String
  privateKey : Option String
  network : String
  deriving DecidableEq

/-- ASCII hex digit, as matched by the character class [0-9a-fA-F]. -/
def isHexDigit (c : Char) : Bool :=
  c.isDigit || ('a' ≤ c && c ≤ 'f') || ('A' ≤ c && c ≤ 'F')

/-- The code's private-key shape check, regex ^0x[0-9a-fA-F]\x7b64\x7d$
(client.ts line 31), rendered over the string's character list: the
literal 0x, then exactly 64 hex digits. -/
def privateKeyOk (s : String) : Bool :=
  match s.data with
  | '0' :: 'x' :: rest => rest.length == 64 && rest.all isHexDigit
  | _ => false

/-- The code's network shape check, regex ^eip155:\d+$ (client.ts line
37), rendered over the character list: the literal eip155 and a colon,
then one or more decimal digits. -/
def networkOk (s : String) : Bool :=
  match s.data with
  | 'e' :: 'i' :: 'p' :: '1' :: '5' :: '5' :: ':' :: rest =>
      !rest.isEmpty && rest.all Char.isDigit
  | _ => false

/-- Modelled from the spec: the CAIP-2-style grammar the spec claims for
the network field, regex ^[a-z0-9]+:[a-zA-Z0-9]+$ (namespace:reference):
a nonempty lowercase-alphanumeric namespace, a colon, and a nonempty
alphanumeric reference (neither class admits a colon).  Present only to
compare the spec's claimed grammar with the code's networkOk; it does not
appear in the code. -/
def specNetworkGrammar (s : String) : Bool :=
  let a := s.data.takeWhile (fun c => !(c == ':'))
  match s.data.dropWhile (fun c => !(c == ':')) with
  | ':' :: b =>
      !a.isEmpty && a.all (fun c => c.isLower || c.isDigit) &&
      !b.isEmpty && b.all Char.isAlphanum
  | _ => false

/-- The zod configSchema check (client.ts lines 28-38): apiUrl must be a
valid URL (the URL parser is platform-delegated and passed in as a
predicate), privateKey if present must match privateKeyOk, and network
must match networkOk.  createBloomfilterClient calls configSchema.parse
before any network object is created, so construction succeeds iff this
returns true. -/
def configSchema (isValidUrl : String → Bool) (cfg : BloomfilterConfig) : Bool :=
  isValidUrl cfg.apiUrl &&
  (match cfg.privateKey with
   | none => true
   | some k => privateKeyOk k) &&
  networkOk cfg.network

/-- Whether a wallet identity exists: the code derives an account from the
private key exactly when one is provided (client.ts lines 90-91). -/
def hasWallet (cfg : BloomfilterConfig) : Bool :=
  cfg.privateKey.isSome

-- ── Token cache and API response shapes (src/client.ts, src/types.ts) ──────

/-- In-memory token cache (interface TokenCache in client.ts).  Times are
milliseconds, modelled as integers. -/
structure TokenCache where
  accessToken : String
  refreshToken : String
  expiresAt : Int
  deriving DecidableEq

/-- Response of GET /auth/nonce (interface NonceResponse in types.ts). -/
structure NonceResponse where
  nonce : String
  domain : String
  uri : String
  chainId : Int
  version : String
  expiresIn : Int
  deriving DecidableEq

/-- Response of POST /auth/verify (interface AuthTokenResponse in types.ts). -/
structure AuthTokenResponse where
  accessToken : String
  refreshToken : String
  expiresIn : Int
  walletAddress : String
  deriving DecidableEq

/-- Response of POST /auth/refresh (interface RefreshTokenResponse). -/
structure RefreshTokenResponse where
  accessToken : String
  refreshToken : String
  expiresIn : Int
  deriving DecidableEq

-- ── getAuthHeaders (client.ts lines 201-204) ───────────────────────────────

/-- Auth headers for authenticated requests.  The source function reads
only the token cache and returns a header record; in this embedding it is
a pure function of the cache alone (it takes no environment and returns no
call list), which is exactly the no-network / no-mutation contract. -/
def getAuthHeaders (cache : Option TokenCache) : List (String × String) :=
  match cache with
  | none => []
  | some tc => [("Authorization", "Bearer " ++ tc.accessToken)]

-- ── Session manager (client.ts lines 110-199) ──────────────────────────────

/-- Label for one network request issued by the session manager or poller. -/
inductive NetCall
  | nonce
  | verify
  | refresh
  | jobStatus
  deriving DecidableEq

/-- Environment for one pass through the session manager: the clock values
each Date.now() call would observe and each endpoint's outcome.  An
Except.error (resp. Option.none) models the request throwing. -/
structure AuthEnv where
  /-- Date.now() at the ensureAuth expiry check (client.ts line 190). -/
  now : Int
  /-- Outcome of GET /auth/nonce; error carries the thrown message. -/
  nonceResp : Except String NonceResponse
  /-- Outcome of the local account.signMessage call. -/
  signResp : Except String Unit
  /-- Outcome of POST /auth/verify. -/
  verifyResp : Except String AuthTokenResponse
  /-- Date.now() when authenticate caches tokens (client.ts line 145). -/
  authNow : Int
  /-- Outcome of POST /auth/refresh; the catch block ignores the error. -/
  refreshResp : Option RefreshTokenResponse
  /-- Date.now() when refreshAuth caches tokens (client.ts line 166). -/
  refreshNow : Int

/-- Result of one session-manager operation: the value returned or thrown,
the token cache after the operation, and the network calls issued. -/
structure StepOut where
  result : Except String Unit
  cache : Option TokenCache
  calls : List NetCall

/-- Full SIWE authentication flow (client.ts lines 112-153): nonce fetch,
SIWE message construction and signing, verify call, then cache the tokens
with expiresAt = Date.now() + expiresIn * 1000 - 60000 (the one-minute
safety margin).  Any failure after the account check is rethrown as an
authentication failure carrying the underlying message. -/
def authenticate (env : AuthEnv) (account : Bool) (cache : Option TokenCache) : StepOut :=
  if !account then
    { result := .error "Cannot authenticate without a private key", cache := cache, calls := [] }
  else
    match env.nonceResp with
    | .error e =>
        { result := .error ("Authentication failed: " ++ e), cache := cache, calls := [.nonce] }
    | .ok _ =>
        match env.signResp with
        | .error e =>
            { result := .error ("Authentication failed: " ++ e), cache := cache, calls := [.nonce] }
        | .ok _ =>
            match env.verifyResp with
            | .error e =>
                { result := .error ("Authentication failed: " ++ e), cache := cache,
                  calls := [.nonce, .verify] }
            | .ok a =>
                { result := .ok (),
                  cache := some
                    { accessToken := a.accessToken,
                      refreshToken := a.refreshToken,
                      expiresAt := env.authNow + a.expiresIn * 1000 - 60000 },
                  calls := [.nonce, .verify] }

/-- Result of refreshAuth: the boolean the source returns, the cache after
the call, and the network calls issued. -/
structure RefreshOut where
  refreshed : Bool
  cache : Option TokenCache
  calls : List NetCall

/-- Token refresh flow (client.ts lines 155-176): returns false with no
call when no cache exists; otherwise POSTs the refresh token.  On success
the cache is replaced with the new tokens and the same expiry formula; on
any failure the cache is discarded (set to none) and false is returned. -/
def refreshAuth (env : AuthEnv) (cache : Option TokenCache) : RefreshOut :=
  match cache with
  | none => { refreshed := false, cache := none, calls := [] }
  | some _ =>
      match env.refreshResp with
      | some r =>
          { refreshed := true,
            cache := some
              { accessToken := r.accessToken,
                refreshToken := r.refreshToken,
                expiresAt := env.refreshNow + r.expiresIn * 1000 - 60000 },
            calls := [.refresh] }
      | none => { refreshed := false, cache := none, calls := [.refresh] }

/-- Lazy authentication entry point (client.ts lines 178-199): fail without
a wallet; full flow when no cache; return immediately while the token is
still valid; otherwise try a refresh and fall back to the full flow. -/
def ensureAuth (env : AuthEnv) (account : Bool) (cache : Option TokenCache) : StepOut :=
  if !account then
    { result := .error "BLOOMFILTER_PRIVATE_KEY is required for authenticated operations",
      cache := cache, calls := [] }
  else
    match cache with
    | none => authenticate env account none
    | some tc =>
        if env.now < tc.expiresAt then
          { result := .ok (), cache := some tc, calls := [] }
        else
          let ro := refreshAuth env (some tc)
          if ro.refreshed then
            { result := .ok (), cache := ro.cache, calls := ro.calls }
          else
            let ao := authenticate env account ro.cache
            { result := ao.result, cache := ao.cache, calls := ro.calls ++ ao.calls }

-- ── Job records (src/types.ts) ─────────────────────────────────────────────

/-- Payment sub-record of registration/renewal responses (types.ts). -/
structure PaymentInfo where
  amountUsd : String
  txHash : Option String
  network : String
  settled : Bool
  deriving DecidableEq

/-- DNS record entry inside a registration response (types.ts). -/
structure DnsRecordEntry where
  type : String
  host : String
  value : String
  deriving DecidableEq

/-- Registration response (interface RegistrationResponse in types.ts). -/
structure RegistrationResponse where
  domain : String
  status : String
  registeredAt : Option String
  expiresAt : Option String
  jobId : Option String
  payment : Option PaymentInfo
  dnsRecords : Option (List DnsRecordEntry)
  warnings : Option (List String)
  deriving DecidableEq

/-- Renewal response (interface RenewalResponse in types.ts). -/
structure RenewalResponse where
  domain : String
  renewedAt : Option String
  newExpiresAt : Option String
  jobId : Option String
  payment : Option PaymentInfo
  deriving DecidableEq

/-- Result payload of a completed job: RegistrationResponse or
RenewalResponse (the union type in types.ts). -/
inductive JobResult
  | registration (r : RegistrationResponse)
  | renewal (r : RenewalResponse)
  deriving DecidableEq

/-- Job status values (types.ts). -/
inductive JobStatus
  | pending
  | processing
  | completed
  | failed
  deriving DecidableEq

/-- Job record as observed from GET /domains/status/(jobId)
(interface JobStatusResponse in types.ts). -/
structure JobStatusResponse where
  jobId : String
  status : JobStatus
  domain : String
  result : Option JobResult
  error : Option String
  createdAt : String
  updatedAt : String
  deriving DecidableEq

-- ── Job polling (client.ts lines 225-252) ──────────────────────────────────

/-- Outcome of pollJobStatus: the returned record, or the message of the
thrown error, each throw site kept distinct.  Every branch is a value of
this type, so the loop reports failures rather than crashing. -/
inductive PollOutcome
  | completed (r : JobStatusResponse)
  | failed (msg : String)
  | authFailed (msg : String)
  | timedOut (msg : String)
  deriving DecidableEq

/-- Generic message thrown when a job reports failed with no error
(client.ts line 241). -/
def genericJobFailureMsg (jobId : String) : String :=
  "Job " ++ jobId ++ " failed: domain provisioning was unsuccessful"

/-- Timeout message thrown when the poll budget is exhausted (client.ts
lines 248-251); JOB_TIMEOUT_MS / 1000 renders as 300. -/
def jobTimeoutMsg (jobId : String) : String :=
  "Job " ++ jobId ++ " timed out after " ++ toString (JOB_TIMEOUT_MS / 1000) ++
  "s. The domain may still be provisioning — check status later with get_domain_info."

/-- One pass of the polling loop (client.ts lines 228-246), indexed by the
iteration number i and the elapsed milliseconds since startTime at the
loop-condition check.  Per iteration the environment supplies the result
of the ensureAuth re-check (auth i), the fetched job record (fetch i), and
the request latency (lat i); the sleep then adds JOB_POLL_INTERVAL_MS.
Returns the outcome together with the elapsed time at which each status
fetch was issued, so fetch counts and spacing are the trace's length and
gaps.  Termination: each iteration advances elapsed by at least the poll
interval, so the budget JOB_TIMEOUT_MS - elapsed strictly decreases. -/
def pollJobStatusAux (auth : Nat → Except String Unit) (fetch : Nat → JobStatusResponse)
    (lat : Nat → Nat) (jobId : String) (i : Nat) (elapsed : Nat) :
    PollOutcome × List Nat :=
  if elapsed < JOB_TIMEOUT_MS then
    match auth i with
    | .error e => (.authFailed e, [])
    | .ok _ =>
        let d := fetch i
        if d.status = .completed then
          (.completed d, [elapsed])
        else if d.status = .failed then
          (.failed (d.error.getD (genericJobFailureMsg jobId)), [elapsed])
        else
          let rest := pollJobStatusAux auth fetch lat jobId (i + 1)
            (elapsed + lat i + JOB_POLL_INTERVAL_MS)
          (rest.1, elapsed :: rest.2)
  else
    (.timedOut (jobTimeoutMsg jobId), [])
termination_by JOB_TIMEOUT_MS - elapsed
decreasing_by
  simp only [JOB_TIMEOUT_MS, JOB_POLL_INTERVAL_MS] at *
  omega

/-- Poll an async job until completion or failure (client.ts lines
225-252): the loop starts with zero elapsed time at iteration 0. -/
def pollJobStatus (auth : Nat → Except String Unit) (fetch : Nat → JobStatusResponse)
    (lat : Nat → Nat) (jobId : String) : PollOutcome × List Nat :=
  pollJobStatusAux auth fetch lat jobId 0 0

-- ── Error classification (client.ts lines 274-383) ─────────────────────────

/-- One payment offer inside a 402 body's accepts array; the code reads
accepts[0]?.price ?? accepts[0]?.amount. -/
structure PaymentOffer where
  price : Option String
  amount : Option String
  deriving DecidableEq

/-- The resource object of a 402 body; the code reads resource?.description. -/
structure ErrResource where
  description : Option String
  deriving DecidableEq

/-- Fields the classifier reads off a JSON object body; a field the body
lacks (or that is null/undefined) is none, matching the semantics of the
?? operator the code applies to each of them. -/
structure ErrBody where
  message : Option String
  error : Option String
  detail : Option String
  code : Option String
  accepts : Option (List PaymentOffer)
  resource : Option ErrResource
  deriving DecidableEq

/-- The value of error.response.data: absent (undefined/null), a string
body, or a JSON object. -/
inductive RespData
  | absent
  | str (s : String)
  | obj (b : ErrBody)
  deriving DecidableEq

/-- JavaScript truthiness of the data value, as tested by the code's
`if (error.response?.data)`: undefined/null and the empty string are
falsy, objects (even empty ones) are truthy. -/
def RespData.truthy : RespData → Bool
  | .absent => false
  | .str s => !(s == "")
  | .obj _ => true

/-- Property access data.message: undefined on non-objects. -/
def RespData.message : RespData → Option String
  | .obj b => b.message
  | _ => none

/-- Property access data.error: undefined on non-objects. -/
def RespData.error : RespData → Option String
  | .obj b => b.error
  | _ => none

/-- Property access data.detail: undefined on non-objects. -/
def RespData.detail : RespData → Option String
  | .obj b => b.detail
  | _ => none

/-- Property access data.code: undefined on non-objects. -/
def RespData.code : RespData → Option String
  | .obj b => b.code
  | _ => none

/-- Property access data.accepts: undefined on non-objects. -/
def RespData.accepts : RespData → Option (List PaymentOffer)
  | .obj b => b.accepts
  | _ => none

/-- Property access data.resource: undefined on non-objects. -/
def RespData.resource : RespData → Option ErrResource
  | .obj b => b.resource
  | _ => none

/-- The HTTP response attached to an axios error. -/
structure AxiosResponse where
  status : Nat
  data : RespData
  statusText : Option String
  deriving DecidableEq

/-- An axios error: optional response, optional error code string
(ECONNREFUSED etc.), the raw message, and config?.baseURL. -/
structure AxiosError where
  response : Option AxiosResponse
  code : Option String
  message : String
  configBaseURL : Option String
  deriving DecidableEq

/-- The error value passed to formatToolError: an axios error, or any
other thrown value reduced to its message string (error.message for Error
instances, String(error) otherwise — both render the same way). -/
inductive ClientError
  | axiosErr (e : AxiosError)
  | otherErr (message : String)

/-- MCP tool result as produced by formatToolError: the text blocks and
the error flag (every branch of the formatter sets it to true). -/
structure McpToolResult where
  content : List String
  isError : Bool
  deriving DecidableEq

/-- Rendering of a possibly-undefined value inside a JS template literal:
undefined prints as the string undefined. -/
def jsTemplate : Option String → String
  | some s => s
  | none => "undefined"

/-- First-defined choice, the ?? chain over optional fields. -/
def firstDefined (xs : List (Option String)) : Option String :=
  match xs with
  | [] => none
  | some s :: _ => some s
  | none :: rest => firstDefined rest

/-- Bottom half of formatToolError (client.ts lines 341-374), reached when
there is no usable response body: connection errors, timeouts, then the
generic axios fallback. -/
def formatTransportError (e : AxiosError) (apiUrl : Option String) : McpToolResult :=
  if e.code == some "ECONNREFUSED" || e.code == some "ENOTFOUND" then
    { content := ["Failed to connect to Bloomfilter API at " ++
        jsTemplate (firstDefined [apiUrl, e.configBaseURL, some "unknown"]) ++
        ". Check that the API is running and BLOOMFILTER_API_URL is correct."],
      isError := true }
  else if e.code == some "ECONNABORTED" || e.code == some "ERR_CANCELED" then
    { content := ["Request timed out. The Bloomfilter API may be slow or unreachable."],
      isError := true }
  else
    { content := ["Request failed: " ++ e.message], isError := true }

/-- Format any error into a consistent MCP tool result (client.ts lines
274-383), translated branch for branch: 429 first, then any truthy
response body (402 with accepts, 402 without, generic API error), then the
transport-level fallbacks, then non-axios errors. -/
def formatToolError (error : ClientError) (apiUrl : Option String) : McpToolResult :=
  match error with
  | .axiosErr e =>
      match e.response with
      | some r =>
          if r.status == 429 then
            { content := ["Rate limited: " ++ (r.data.message.getD "Too many requests") ++
                ". Please wait before retrying."],
              isError := true }
          else if r.data.truthy then
            if r.status == 402 then
              match r.data.accepts with
              | some accepts =>
                  let amount : Option String :=
                    match accepts.head? with
                    | some o => firstDefined [o.price, o.amount]
                    | none => none
                  let description : Option String :=
                    match r.data.resource with
                    | some res => res.description
                    | none => none
                  let detail :=
                    match description with
                    | some d =>
                        if d == "" then
                          "Payment of " ++ jsTemplate amount ++ " USDC required"
                        else
                          d ++ " requires payment of " ++ jsTemplate amount ++ " USDC"
                    | none => "Payment of " ++ jsTemplate amount ++ " USDC required"
                  { content := ["Payment required: " ++ detail ++
                      ". Ensure your wallet has sufficient USDC balance."],
                    isError := true }
              | none =>
                  let serverMsg := firstDefined [r.data.message, r.data.error, r.data.detail]
                  let detail :=
                    serverMsg.getD "payment was attempted but could not be settled on-chain"
                  { content := ["Payment failed: " ++ detail ++
                      ". Check that your wallet has sufficient USDC balance on Base."],
                    isError := true }
            else
              let code := r.data.code.getD ("HTTP " ++ toString r.status)
              let message :=
                (firstDefined [r.data.message, r.data.error, r.data.detail, r.statusText]).getD
                  ("Request failed with status " ++ toString r.status)
              { content := ["Error [" ++ code ++ "]: " ++ message], isError := true }
          else
            formatTransportError e apiUrl
      | none => formatTransportError e apiUrl
  | .otherErr message =>
      { content := ["Error: " ++ message], isError := true }

-- ── Sample values used by witnesses ────────────────────────────────────────

/-- A sample job record with the given status, used to instantiate the
polling theorems on concrete inputs. -/
def sampleJob (st : JobStatus) : JobStatusResponse :=
  { jobId := "job-1", status := st, domain := "example.com", result := none,
    error := none, createdAt := "2026-01-01", updatedAt := "2026-01-01" }

/-- A sample environment whose refresh endpoint succeeds. -/
def envRefreshOk : AuthEnv :=
  { now := 1000, nonceResp := .error "down", signResp := .ok (),
    verifyResp := .error "down", authNow := 1000,
    refreshResp := some { accessToken := "na", refreshToken := "nr", expiresIn := 120 },
    refreshNow := 5000 }

/-- A sample environment whose refresh endpoint fails and whose full flow
succeeds. -/
def envRefreshFail : AuthEnv :=
  { now := 1000,
    nonceResp := .ok { nonce := "n", domain := "d", uri := "u", chainId := 8453,
                       version := "1", expiresIn := 300 },
    signResp := .ok (),
    verifyResp := .ok { accessToken := "fa", refreshToken := "fr", expiresIn := 240,
                        walletAddress := "0xabc" },
    authNow := 2000, refreshResp := none, refreshNow := 5000 }

/-- A sample cached token that is still valid at time 1000. -/
def tcFresh : TokenCache :=
  { accessToken := "a", refreshToken := "r", expiresAt := 2000 }

/-- A sample cached token that is expired at time 1000. -/
def tcStale : TokenCache :=
  { accessToken := "a", refreshToken := "r", expiresAt := 500 }

/-- An object body with only a message field, as a 429 server might send. -/
def bodyRate : ErrBody :=
  { message := some "slow down", error := none, detail := none, code := none,
    accepts := none, resource := none }

/-- A 429 response carrying bodyRate. -/
def respRate : AxiosResponse :=
  { status := 429, data := .obj bodyRate, statusText := some "Too Many Requests" }

/-- An axios error holding respRate. -/
def errRate : AxiosError :=
  { response := some respRate, code := none,
    message := "Request failed with status code 429", configBaseURL := none }

/-- A payment offer with a price field. -/
def offer1 : PaymentOffer :=
  { price := some "5", amount := none }

/-- A 402 body carrying one payment offer. -/
def bodyOffer : ErrBody :=
  { message := none, error := none, detail := none, code := none,
    accepts := some [offer1], resource := none }

/-- A 402 response carrying bodyOffer. -/
def respOffer : AxiosResponse :=
  { status := 402, data := .obj bodyOffer, statusText := none }

/-- An axios error holding respOffer. -/
def errOffer : AxiosError :=
  { response := some respOffer, code := none,
    message := "Request failed with status code 402", configBaseURL := none }

/-- A 402 body with no accepts array, only an error field. -/
def bodySettle : ErrBody :=
  { message := none, error := some "insufficient funds", detail := none, code := none,
    accepts := none, resource := none }

/-- A 402 response carrying bodySettle. -/
def respSettle : AxiosResponse :=
  { status := 402, data := .obj bodySettle, statusText := none }

/-- An axios error holding respSettle. -/
def errSettle : AxiosError :=
  { response := some respSettle, code := none,
    message := "Request failed with status code 402", configBaseURL := none }

/-- A 402 response with no body at all. -/
def respNoBody : AxiosResponse :=
  { status := 402, data := .absent, statusText := none }

/-- An axios error holding respNoBody. -/
def errNoBody : AxiosError :=
  { response := some respNoBody, code := none,
    message := "Request failed with status code 402", configBaseURL := none }

/-- A 402 body whose accepts field is an empty array. -/
def bodyEmptyAccepts : ErrBody :=
  { message := none, error := none, detail := none, code := none,
    accepts := some [], resource := none }

/-- A 402 response carrying bodyEmptyAccepts. -/
def respEmptyAccepts : AxiosResponse :=
  { status := 402, data := .obj bodyEmptyAccepts, statusText := none }

/-- An axios error holding respEmptyAccepts. -/
def errEmptyAccepts : AxiosError :=
  { response := some respEmptyAccepts, code := none,
    message := "Request failed with status code 402", configBaseURL := none }

/-- A sample job-status schedule: pending on the first three polls,
completed on the fourth. -/
def sampleFetchPendingThenCompleted (i : Nat) : JobStatusResponse :=
  if i < 3 then sampleJob .pending else sampleJob .completed

-- ── Theorems ───────────────────────────────────────────────────────────────

/-- C5: with a cached token whose expiresAt is strictly in the future,
ensureAuth returns successfully at once, issues zero network calls, and
leaves the token cache unchanged. -/
theorem ensureAuth_fresh_token_no_network (env : AuthEnv) (tc : TokenCache)
    (h : env.now < tc.expiresAt) :
    ensureAuth env true (some tc) =
      { result := .ok (), cache := some tc, calls := [] } := by
  simp [ensureAuth, h]

/-- Witness for C5 at a concrete environment and cache. -/
theorem ensureAuth_fresh_token_no_network_witness :
    ensureAuth envRefreshOk true (some tcFresh) =
      { result := .ok (), cache := some tcFresh, calls := [] } :=
  ensureAuth_fresh_token_no_network envRefreshOk tcFresh (by decide)

/-- C7: getAuthHeaders is a pure read (in this embedding a function of the
cache alone, so it can issue no network call and mutate nothing): it
returns no headers when no token cache exists, and otherwise exactly one
Authorization header holding Bearer followed by the cached access token. -/
theorem getAuthHeaders_spec :
    getAuthHeaders none = [] ∧
    ∀ tc : TokenCache,
      getAuthHeaders (some tc) = [("Authorization", "Bearer " ++ tc.accessToken)] :=
  ⟨rfl, fun _ => rfl⟩

/-- C9: getAuthHeaders never inspects expiresAt — for a cached token that
is expired relative to any current time, the bearer header built from the
(expired) access token is still returned, and the result is empty exactly
when no cache exists. -/
theorem getAuthHeaders_ignores_expiry :
    (∀ (tc : TokenCache) (now : Int), tc.expiresAt ≤ now →
      getAuthHeaders (some tc) = [("Authorization", "Bearer " ++ tc.accessToken)]) ∧
    ∀ cache : Option TokenCache, (getAuthHeaders cache = [] ↔ cache = none) := by
  refine ⟨fun tc now _ => rfl, fun cache => ?_⟩
  cases cache <;> simp [getAuthHeaders]

/-- Witness for C9: an expired token (expiresAt 500 ≤ now 900) still
yields the bearer header. -/
theorem getAuthHeaders_ignores_expiry_witness :
    getAuthHeaders (some tcStale) = [("Authorization", "Bearer " ++ tcStale.accessToken)] :=
  getAuthHeaders_ignores_expiry.1 tcStale 900 (by decide)

/-- C8: a client built from a config without a private key has no wallet
identity, so ensureAuth fails with the configuration error, issues zero
network calls, and leaves the token cache exactly as it was (in
particular, an absent cache remains absent). -/
theorem ensureAuth_no_wallet (cfg : BloomfilterConfig) (env : AuthEnv)
    (cache : Option TokenCache) (h : cfg.privateKey = none) :
    ensureAuth env (hasWallet cfg) cache =
      { result := .error "BLOOMFILTER_PRIVATE_KEY is required for authenticated operations",
        cache := cache, calls := [] } := by
  simp [ensureAuth, hasWallet, h]

/-- Witness for C8 at a concrete keyless config with an absent cache. -/
theorem ensureAuth_no_wallet_witness :
    ensureAuth envRefreshOk
        (hasWallet { apiUrl := "https://api.bloomfilter.xyz", privateKey := none,
                     network := "eip155:8453" }) none =
      { result := .error "BLOOMFILTER_PRIVATE_KEY is required for authenticated operations",
        cache := none, calls := [] } :=
  ensureAuth_no_wallet _ envRefreshOk none rfl

/-- C2 counterexample: the network value cosmos:hub matches the spec's
claimed grammar, the URL is valid (any URL validator accepting it), and no
private key is given, yet the code's configSchema rejects the config — its
actual regex is ^eip155:\d+$, not the claimed namespace:reference grammar. -/
theorem configSchema_spec_grammar_counterexample :
    specNetworkGrammar "cosmos:hub" = true ∧
    networkOk "cosmos:hub" = false ∧
    configSchema (fun _ => true)
      { apiUrl := "https://api.bloomfilter.xyz", privateKey := none,
        network := "cosmos:hub" } = false := by
  refine ⟨by decide, by decide, by decide⟩

/-- C2 amended: construction fails if and only if the URL check fails, the
network does not match ^eip155:\d+$, or a provided private key fails the
0x + 64-hex-digit check; in particular every config whose network matches
^eip155:\d+$ and whose other fields are valid is accepted. -/
theorem configSchema_rejects_iff (isValidUrl : String → Bool) (cfg : BloomfilterConfig) :
    configSchema isValidUrl cfg = false ↔
      (isValidUrl cfg.apiUrl = false ∨ networkOk cfg.network = false ∨
       ∃ k, cfg.privateKey = some k ∧ privateKeyOk k = false) := by
  cases hpk : cfg.privateKey with
  | none =>
      cases hu : isValidUrl cfg.apiUrl <;> cases hn : networkOk cfg.network <;>
        simp [configSchema, hpk, hu, hn]
  | some k =>
      cases hu : isValidUrl cfg.apiUrl <;> cases hn : networkOk cfg.network <;>
        cases hk : privateKeyOk k <;> simp [configSchema, hpk, hu, hn, hk]

/-- C6: every token-cache write — by the full authentication flow and by a
successful refresh — sets expiresAt to the Date.now() observed at the
write plus expiresIn seconds converted to milliseconds minus the 60000 ms
safety margin, the same formula in both flows. -/
theorem tokenCache_expiry_formula :
    (∀ (env : AuthEnv) (cache : Option TokenCache) (n : NonceResponse)
       (a : AuthTokenResponse),
      env.nonceResp = .ok n → env.signResp = .ok () → env.verifyResp = .ok a →
      (authenticate env true cache).cache =
        some { accessToken := a.accessToken, refreshToken := a.refreshToken,
               expiresAt := env.authNow + a.expiresIn * 1000 - 60000 }) ∧
    (∀ (env : AuthEnv) (tc : TokenCache) (r : RefreshTokenResponse),
      env.refreshResp = some r →
      (refreshAuth env (some tc)).cache =
        some { accessToken := r.accessToken, refreshToken := r.refreshToken,
               expiresAt := env.refreshNow + r.expiresIn * 1000 - 60000 }) := by
  constructor
  · intro env cache n a hn hs hv
    simp [authenticate, hn, hs, hv]
  · intro env tc r hr
    simp [refreshAuth, hr]

/-- Witness for C6: both flows applied at concrete environments. -/
theorem tokenCache_expiry_formula_witness :
    (authenticate envRefreshFail true none).cache =
      some { accessToken := "fa", refreshToken := "fr",
             expiresAt := (2000 : Int) + 240 * 1000 - 60000 } ∧
    (refreshAuth envRefreshOk
        (some { accessToken := "a", refreshToken := "r", expiresAt := 500 })).cache =
      some { accessToken := "na", refreshToken := "nr",
             expiresAt := (5000 : Int) + 120 * 1000 - 60000 } :=
  ⟨tokenCache_expiry_formula.1 envRefreshFail none _ _ rfl rfl rfl,
   tokenCache_expiry_formula.2 envRefreshOk _ _ rfl⟩

/-- C1: with a wallet and a cached token that has expired (now is at or
past expiresAt), ensureAuth attempts exactly one refresh; if the refresh
succeeds the cache is replaced by the new tokens and no full
authentication flow runs (the only call is the refresh); if the refresh
fails the stale cache is discarded unconditionally and exactly one full
authentication flow runs — the result, the final cache (the new tokens on
success, none on failure, never the stale ones), and the subsequent calls
are exactly those of a full authentication from an empty cache. -/
theorem ensureAuth_expired_token_refresh (env : AuthEnv) (tc : TokenCache)
    (h : tc.expiresAt ≤ env.now) :
    ((ensureAuth env true (some tc)).calls.count .refresh = 1) ∧
    (∀ r : RefreshTokenResponse, env.refreshResp = some r →
      ensureAuth env true (some tc) =
        { result := .ok (),
          cache := some { accessToken := r.accessToken, refreshToken := r.refreshToken,
                          expiresAt := env.refreshNow + r.expiresIn * 1000 - 60000 },
          calls := [.refresh] }) ∧
    (env.refreshResp = none →
      (ensureAuth env true (some tc)).calls.count .nonce = 1 ∧
      ensureAuth env true (some tc) =
        { result := (authenticate env true none).result,
          cache := (authenticate env true none).cache,
          calls := .refresh :: (authenticate env true none).calls }) := by
  have hlt : ¬ env.now < tc.expiresAt := not_lt.mpr h
  cases hr : env.refreshResp with
  | some r =>
      refine ⟨?_, ?_, ?_⟩
      · simp [ensureAuth, hlt, refreshAuth, hr]
      · intro r' hr'
        cases Option.some.inj hr'
        simp [ensureAuth, hlt, refreshAuth, hr]
      · intro hnone
        exact absurd hnone (by simp)
  | none =>
      have hstep : ensureAuth env true (some tc) =
          { result := (authenticate env true none).result,
            cache := (authenticate env true none).cache,
            calls := .refresh :: (authenticate env true none).calls } := by
        simp [ensureAuth, hlt, refreshAuth, hr]
      refine ⟨?_, ?_, fun _ => ⟨?_, hstep⟩⟩
      · rw [hstep]
        cases hn : env.nonceResp <;> cases hs : env.signResp <;>
          cases hv : env.verifyResp <;>
          simp [authenticate, hn, hs, hv, List.count_cons]
      · intro r' hr'
        exact absurd hr' (by simp)
      · rw [hstep]
        cases hn : env.nonceResp <;> cases hs : env.signResp <;>
          cases hv : env.verifyResp <;>
          simp [authenticate, hn, hs, hv, List.count_cons]

/-- Witness for C1: the refresh-success environment replaces the cache in
one refresh call, and the refresh-failure environment runs exactly one
full flow. -/
theorem ensureAuth_expired_token_refresh_witness :
    (ensureAuth envRefreshOk true (some tcStale) =
      { result := .ok (),
        cache := some { accessToken := "na", refreshToken := "nr",
                        expiresAt := (5000 : Int) + 120 * 1000 - 60000 },
        calls := [.refresh] }) ∧
    ((ensureAuth envRefreshFail true (some tcStale)).calls.count .nonce = 1) :=
  ⟨(ensureAuth_expired_token_refresh envRefreshOk tcStale (by decide)).2.1
      { accessToken := "na", refreshToken := "nr", expiresIn := 120 } rfl,
   ((ensureAuth_expired_token_refresh envRefreshFail tcStale (by decide)).2.2 rfl).1⟩

/-- C4: a 429 response is classified as rate-limited whatever the body,
using the body's message field when present and a default otherwise; a 402
response whose object body carries an accepts array is classified as
payment-required naming the first offer's price (or, failing that, its
amount); a 402 response whose object body has no accepts field is
classified as payment-settlement-failed using the first of the body's
message, error and detail fields, else the generic could-not-be-settled
message.  (The second branch is stated for bodies without a resource
description, the shape the claim describes.) -/
theorem formatToolError_payment_classification :
    (∀ (e : AxiosError) (r : AxiosResponse) (u : Option String),
      e.response = some r → r.status = 429 →
      formatToolError (.axiosErr e) u =
        { content := ["Rate limited: " ++ (r.data.message.getD "Too many requests") ++
            ". Please wait before retrying."],
          isError := true }) ∧
    (∀ (e : AxiosError) (r : AxiosResponse) (u : Option String) (b : ErrBody)
       (o : PaymentOffer) (rest : List PaymentOffer),
      e.response = some r → r.status = 402 → r.data = .obj b →
      b.accepts = some (o :: rest) → b.resource = none →
      formatToolError (.axiosErr e) u =
        { content := ["Payment required: " ++
            ("Payment of " ++ jsTemplate (firstDefined [o.price, o.amount]) ++
             " USDC required") ++
            ". Ensure your wallet has sufficient USDC balance."],
          isError := true }) ∧
    (∀ (e : AxiosError) (r : AxiosResponse) (u : Option String) (b : ErrBody),
      e.response = some r → r.status = 402 → r.data = .obj b → b.accepts = none →
      formatToolError (.axiosErr e) u =
        { content := ["Payment failed: " ++
            ((firstDefined [b.message, b.error, b.detail]).getD
              "payment was attempted but could not be settled on-chain") ++
            ". Check that your wallet has sufficient USDC balance on Base."],
          isError := true }) := by
  refine ⟨?_, ?_, ?_⟩
  · rintro ⟨resp, c, m, cb⟩ r u h1 h2
    cases h1
    simp [formatToolError, h2]
  · rintro ⟨resp, c, m, cb⟩ r u b o rest h1 h2 h3 h4 h5
    cases h1
    simp [formatToolError, h2, h3, RespData.truthy, RespData.accepts, RespData.resource,
      h4, h5]
  · rintro ⟨resp, c, m, cb⟩ r u b h1 h2 h3 h4
    cases h1
    simp [formatToolError, h2, h3, RespData.truthy, RespData.accepts, RespData.message,
      RespData.error, RespData.detail, h4]

/-- Witness for C4 at the three concrete errors. -/
theorem formatToolError_payment_classification_witness :
    (formatToolError (.axiosErr errRate) none =
      { content := ["Rate limited: " ++ (respRate.data.message.getD "Too many requests") ++
          ". Please wait before retrying."],
        isError := true }) ∧
    (formatToolError (.axiosErr errOffer) none =
      { content := ["Payment required: " ++
          ("Payment of " ++ jsTemplate (firstDefined [offer1.price, offer1.amount]) ++
           " USDC required") ++
          ". Ensure your wallet has sufficient USDC balance."],
        isError := true }) ∧
    (formatToolError (.axiosErr errSettle) none =
      { content := ["Payment failed: " ++
          ((firstDefined [bodySettle.message, bodySettle.error, bodySettle.detail]).getD
            "payment was attempted but could not be settled on-chain") ++
          ". Check that your wallet has sufficient USDC balance on Base."],
        isError := true }) :=
  ⟨formatToolError_payment_classification.1 errRate respRate none rfl rfl,
   formatToolError_payment_classification.2.1 errOffer respOffer none bodyOffer offer1 []
     rfl rfl rfl rfl rfl,
   formatToolError_payment_classification.2.2 errSettle respSettle none bodySettle
     rfl rfl rfl rfl⟩

/-- C10: a 402 response whose data is absent or an empty string (falsy) is
never classified as payment-related — the formatter falls through to the
transport-level classification (connectivity, timeout, or the generic
message); a 402 object body whose accepts field is the empty array is
still classified as payment-required, and the named amount renders as the
string undefined. -/
theorem formatToolError_402_no_body :
    (∀ (e : AxiosError) (r : AxiosResponse) (u : Option String),
      e.response = some r → r.status = 402 → r.data.truthy = false →
      formatToolError (.axiosErr e) u = formatTransportError e u) ∧
    (∀ (e : AxiosError) (r : AxiosResponse) (u : Option String) (b : ErrBody),
      e.response = some r → r.status = 402 → r.data = .obj b →
      b.accepts = some [] → b.resource = none →
      formatToolError (.axiosErr e) u =
        { content := ["Payment required: " ++
            ("Payment of " ++ "undefined" ++ " USDC required") ++
            ". Ensure your wallet has sufficient USDC balance."],
          isError := true }) := by
  constructor
  · rintro ⟨resp, c, m, cb⟩ r u h1 h2 h3
    cases h1
    simp [formatToolError, h2, h3]
  · rintro ⟨resp, c, m, cb⟩ r u b h1 h2 h3 h4 h5
    cases h1
    simp [formatToolError, h2, h3, RespData.truthy, RespData.accepts, RespData.resource,
      h4, h5, jsTemplate, firstDefined]

/-- Witness for C10: the bodiless 402 falls through to the transport
classification, and the empty-accepts 402 names an undefined amount. -/
theorem formatToolError_402_no_body_witness :
    (formatToolError (.axiosErr errNoBody) none = formatTransportError errNoBody none) ∧
    (formatToolError (.axiosErr errEmptyAccepts) none =
      { content := ["Payment required: " ++
          ("Payment of " ++ "undefined" ++ " USDC required") ++
          ". Ensure your wallet has sufficient USDC balance."],
        isError := true }) :=
  ⟨formatToolError_402_no_body.1 errNoBody respNoBody none rfl rfl rfl,
   formatToolError_402_no_body.2 errEmptyAccepts respEmptyAccepts none bodyEmptyAccepts
     rfl rfl rfl rfl rfl⟩

/-- Unfolding lemma for the poll loop: once the elapsed time reaches the
budget, the loop exits with the timeout outcome and no further fetch. -/
theorem pollAux_budget_exhausted (auth : Nat → Except String Unit)
    (fetch : Nat → JobStatusResponse) (lat : Nat → Nat) (jobId : String)
    (i elapsed : Nat) (h : ¬ elapsed < JOB_TIMEOUT_MS) :
    pollJobStatusAux auth fetch lat jobId i elapsed =
      (.timedOut (jobTimeoutMsg jobId), []) := by
  rw [pollJobStatusAux]
  simp [h]

/-- Unfolding lemma for the poll loop: a completed status returns the
fetched record after this single fetch. -/
theorem pollAux_completed_step (auth : Nat → Except String Unit)
    (fetch : Nat → JobStatusResponse) (lat : Nat → Nat) (jobId : String)
    (i elapsed : Nat) (h : elapsed < JOB_TIMEOUT_MS) (ha : auth i = .ok ())
    (hs : (fetch i).status = .completed) :
    pollJobStatusAux auth fetch lat jobId i elapsed =
      (.completed (fetch i), [elapsed]) := by
  rw [pollJobStatusAux]
  simp [h, ha, hs]

/-- Unfolding lemma for the poll loop: a failed status throws immediately,
using the job's error message or the generic provisioning message. -/
theorem pollAux_failed_step (auth : Nat → Except String Unit)
    (fetch : Nat → JobStatusResponse) (lat : Nat → Nat) (jobId : String)
    (i elapsed : Nat) (h : elapsed < JOB_TIMEOUT_MS) (ha : auth i = .ok ())
    (hs : (fetch i).status = .failed) :
    pollJobStatusAux auth fetch lat jobId i elapsed =
      (.failed ((fetch i).error.getD (genericJobFailureMsg jobId)), [elapsed]) := by
  rw [pollJobStatusAux]
  simp [h, ha, hs]

/-- Unfolding lemma for the poll loop: a non-terminal status sleeps for
the poll interval and continues with the next iteration. -/
theorem pollAux_continue_step (auth : Nat → Except String Unit)
    (fetch : Nat → JobStatusResponse) (lat : Nat → Nat) (jobId : String)
    (i elapsed : Nat) (h : elapsed < JOB_TIMEOUT_MS) (ha : auth i = .ok ())
    (h1 : (fetch i).status ≠ .completed) (h2 : (fetch i).status ≠ .failed) :
    pollJobStatusAux auth fetch lat jobId i elapsed =
      ((pollJobStatusAux auth fetch lat jobId (i + 1)
          (elapsed + lat i + JOB_POLL_INTERVAL_MS)).1,
        elapsed :: (pollJobStatusAux auth fetch lat jobId (i + 1)
          (elapsed + lat i + JOB_POLL_INTERVAL_MS)).2) := by
  rw [pollJobStatusAux]
  simp [h, ha, h1, h2]

/-- If authentication always succeeds and no poll ever observes a terminal
status, the loop ends in the timeout outcome (by induction on the
remaining budget). -/
theorem pollAux_no_terminal_timedOut (auth : Nat → Except String Unit)
    (fetch : Nat → JobStatusResponse) (lat : Nat → Nat) (jobId : String)
    (hauth : ∀ i, auth i = .ok ())
    (hs : ∀ i, (fetch i).status = .pending ∨ (fetch i).status = .processing) :
    ∀ (n i elapsed : Nat), JOB_TIMEOUT_MS - elapsed ≤ n →
      (pollJobStatusAux auth fetch lat jobId i elapsed).1 =
        .timedOut (jobTimeoutMsg jobId) := by
  intro n
  induction n with
  | zero =>
      intro i elapsed hle
      have h : ¬ elapsed < JOB_TIMEOUT_MS := by omega
      rw [pollAux_budget_exhausted auth fetch lat jobId i elapsed h]
  | succ n ih =>
      intro i elapsed hle
      by_cases h : elapsed < JOB_TIMEOUT_MS
      · have h1 : (fetch i).status ≠ .completed := by
          rcases hs i with h' | h' <;> simp [h']
        have h2 : (fetch i).status ≠ .failed := by
          rcases hs i with h' | h' <;> simp [h']
        rw [pollAux_continue_step auth fetch lat jobId i elapsed h (hauth i) h1 h2]
        exact ih (i + 1) (elapsed + lat i + JOB_POLL_INTERVAL_MS)
          (by have hI : JOB_POLL_INTERVAL_MS = 2000 := rfl; omega)
      · rw [pollAux_budget_exhausted auth fetch lat jobId i elapsed h]

/-- C3: for every job id — a first poll observing completed returns the
record after exactly one status fetch (the trace records the single fetch
at elapsed 0); a schedule that is pending on the first three polls and
completed on the fourth (with per-poll latencies small enough to stay in
budget) returns the fourth record after exactly four fetches whose
consecutive timestamps are at least 2000 ms apart; a first poll observing
failed throws immediately with the job's reported error message, or the
generic provisioning-failure message when none is given; and a schedule
that never reaches a terminal status ends in the timeout outcome — a
reported failure value, not a crash, since the loop is a total function. -/
theorem pollJobStatus_spec :
    (∀ (auth : Nat → Except String Unit) (fetch : Nat → JobStatusResponse)
       (lat : Nat → Nat) (jobId : String),
      auth 0 = .ok () → (fetch 0).status = .completed →
      pollJobStatus auth fetch lat jobId = (.completed (fetch 0), [0])) ∧
    (∀ (auth : Nat → Except String Unit) (fetch : Nat → JobStatusResponse)
       (lat : Nat → Nat) (jobId : String),
      (∀ i, i ≤ 3 → auth i = .ok ()) →
      (∀ i, i < 3 → (fetch i).status = .pending) →
      (fetch 3).status = .completed →
      lat 0 + lat 1 + lat 2 < 294000 →
      pollJobStatus auth fetch lat jobId =
        (.completed (fetch 3),
          [0, lat 0 + 2000, lat 0 + lat 1 + 4000, lat 0 + lat 1 + lat 2 + 6000]) ∧
      List.Chain' (fun a b => a + 2000 ≤ b)
        [0, lat 0 + 2000, lat 0 + lat 1 + 4000, lat 0 + lat 1 + lat 2 + 6000]) ∧
    (∀ (auth : Nat → Except String Unit) (fetch : Nat → JobStatusResponse)
       (lat : Nat → Nat) (jobId : String),
      auth 0 = .ok () → (fetch 0).status = .failed →
      pollJobStatus auth fetch lat jobId =
        (.failed ((fetch 0).error.getD (genericJobFailureMsg jobId)), [0])) ∧
    (∀ (auth : Nat → Except String Unit) (fetch : Nat → JobStatusResponse)
       (lat : Nat → Nat) (jobId : String),
      (∀ i, auth i = .ok ()) →
      (∀ i, (fetch i).status = .pending ∨ (fetch i).status = .processing) →
      (pollJobStatus auth fetch lat jobId).1 = .timedOut (jobTimeoutMsg jobId)) := by
  refine ⟨?_, ?_, ?_, ?_⟩
  · intro auth fetch lat jobId ha hc
    exact pollAux_completed_step auth fetch lat jobId 0 0 (by decide) ha hc
  · intro auth fetch lat jobId ha hp hc hsum
    have hI : JOB_POLL_INTERVAL_MS = 2000 := rfl
    have hT : JOB_TIMEOUT_MS = 300000 := rfl
    have hpend : ∀ i, i < 3 → (fetch i).status ≠ .completed ∧ (fetch i).status ≠ .failed := by
      intro i h
      rw [hp i h]
      exact ⟨by simp, by simp⟩
    have h0 := pollAux_continue_step auth fetch lat jobId 0 0
      (by omega) (ha 0 (by omega)) (hpend 0 (by omega)).1 (hpend 0 (by omega)).2
    have h1 := pollAux_continue_step auth fetch lat jobId 1 (0 + lat 0 + JOB_POLL_INTERVAL_MS)
      (by omega) (ha 1 (by omega)) (hpend 1 (by omega)).1 (hpend 1 (by omega)).2
    have h2 := pollAux_continue_step auth fetch lat jobId 2
      (0 + lat 0 + JOB_POLL_INTERVAL_MS + lat 1 + JOB_POLL_INTERVAL_MS)
      (by omega) (ha 2 (by omega)) (hpend 2 (by omega)).1 (hpend 2 (by omega)).2
    have h3 := pollAux_completed_step auth fetch lat jobId 3
      (0 + lat 0 + JOB_POLL_INTERVAL_MS + lat 1 + JOB_POLL_INTERVAL_MS + lat 2 +
        JOB_POLL_INTERVAL_MS)
      (by omega) (ha 3 (by omega)) hc
    refine ⟨?_, ?_⟩
    · show pollJobStatusAux auth fetch lat jobId 0 0 = _
      rw [h0, h1, h2, h3]
      refine Prod.ext rfl ?_
      simp [hI, List.cons.injEq]
      all_goals omega
    · simp [List.chain'_cons]
  · intro auth fetch lat jobId ha hf
    exact pollAux_failed_step auth fetch lat jobId 0 0 (by decide) ha hf
  · intro auth fetch lat jobId ha hs
    exact pollAux_no_terminal_timedOut auth fetch lat jobId ha hs JOB_TIMEOUT_MS 0 0
      (by omega)

/-- Witness for C3: the four schedules instantiated concretely — immediate
completion, pending on three polls then completed with zero latencies, an
immediate failure with no error message, and a permanently pending job. -/
theorem pollJobStatus_spec_witness :
    (pollJobStatus (fun _ => .ok ()) (fun _ => sampleJob .completed) (fun _ => 0) "job-1" =
      (.completed (sampleJob .completed), [0])) ∧
    (pollJobStatus (fun _ => .ok ()) sampleFetchPendingThenCompleted (fun _ => 0) "job-1" =
      (.completed (sampleFetchPendingThenCompleted 3), [0, 2000, 4000, 6000])) ∧
    (pollJobStatus (fun _ => .ok ()) (fun _ => sampleJob .failed) (fun _ => 0) "job-1" =
      (.failed (genericJobFailureMsg "job-1"), [0])) ∧
    ((pollJobStatus (fun _ => .ok ()) (fun _ => sampleJob .pending) (fun _ => 0) "job-1").1 =
      .timedOut (jobTimeoutMsg "job-1")) := by
  refine ⟨?_, ?_, ?_, ?_⟩
  · exact pollJobStatus_spec.1 _ _ _ _ rfl rfl
  · have h := pollJobStatus_spec.2.1 (fun _ => .ok ()) sampleFetchPendingThenCompleted
      (fun _ => 0) "job-1" (fun _ _ => rfl)
      (fun i hi => by simp [sampleFetchPendingThenCompleted, hi, sampleJob])
      (by simp [sampleFetchPendingThenCompleted, sampleJob])
      (by norm_num)
    simpa using h.1
  · exact pollJobStatus_spec.2.2.1 _ _ _ _ rfl rfl
  · exact pollJobStatus_spec.2.2.2 _ _ _ _ (fun _ => rfl) (fun _ => Or.inl rfl)

end Bloomfilter
